import Mathlib

/-!
Verification of the model-loading, shape-inference and execution-lifecycle
engine of the NNERuntimeRDGMLExtensionsForVulkan plugin.

The development shallowly embeds the engine's core functions:
  * `create` embeds `FNNERuntimeRDGMLExtensionsForVulkanModelUnshaped::Create`
    (container parsing and unshaped-model construction),
  * `extractOutputShapes` / `runShapeInference` embed the SPIR-V
    shape-extraction of `RunShapeInference` (the external SPIRV-Tools
    optimizer pass is a function parameter, as it is an external collaborator),
  * `findOrCreateShapedBuild` embeds the construction path of
    `FNNERuntimeRDGMLExtensionsForVulkanModelUnshaped::FindOrCreateShapedModel`,
  * `findOrCreateShapedModelCache` embeds its cache discipline, with object
    identity made explicit through allocation ids,
  * `enqueueRDG` embeds the validation prefix and resource-declaration
    effects of `FNNERuntimeRDGMLExtensionsForVulkanModelInstance::EnqueueRDG`,
  * `enqueueConcurrency` / `cleanupFinishedExecutions` embed the bounded
    in-flight execution queue.

Machine integers are modelled as `Nat`/`Int` with explicit `% 2^32` or
`% 2^64` where C++ conversions truncate.  Places where the C++ performs an
unchecked out-of-bounds access or an unguarded `TMap::Find` dereference
(undefined behaviour) are made explicit as distinguished error outcomes.
-/

/-! ## Generic association-list helpers (embedding of `TMap` as used here:
`Add` overwrites an existing key, `Find` returns the first match). -/

def assocFind {α β : Type} [DecidableEq α] (l : List (α × β)) (k : α) : Option β :=
  (l.find? (fun p => decide (p.1 = k))).map (fun p => p.2)

def assocUpd {α β : Type} [DecidableEq α] (l : List (α × β)) (k : α) (v : β) :
    List (α × β) :=
  (k, v) :: l.filter (fun p => decide (p.1 ≠ k))

/-- In-place update of the `i`-th element of a list (embedding of
`Array[i] = ...` on an index known to be in range; out-of-range leaves the
list unchanged, which is only reachable for states the source never builds). -/
def updateNth {α : Type} : List α → Nat → (α → α) → List α
  | [], _, _ => []
  | x :: xs, 0, f => f x :: xs
  | x :: xs, n + 1, f => x :: updateNth xs n f

theorem updateNth_length {α : Type} (l : List α) (i : Nat) (f : α → α) :
    (updateNth l i f).length = l.length := by
  induction l generalizing i with
  | nil => rfl
  | cons x xs ih =>
    cases i with
    | zero => rfl
    | succ n => simp [updateNth, ih]

theorem updateNth_mem {α : Type} {l : List α} {i : Nat} {f : α → α} {y : α} :
    y ∈ updateNth l i f → y ∈ l ∨ ∃ x, x ∈ l ∧ y = f x := by
  induction l generalizing i with
  | nil => intro h; simp [updateNth] at h
  | cons x xs ih =>
    cases i with
    | zero =>
      intro h
      rcases List.mem_cons.mp h with h | h
      · exact Or.inr ⟨x, List.mem_cons_self x xs, h⟩
      · exact Or.inl (List.mem_cons_of_mem _ h)
    | succ n =>
      intro h
      rcases List.mem_cons.mp h with h | h
      · exact Or.inl (h ▸ List.mem_cons_self x xs)
      · rcases ih h with h2 | ⟨z, hz, hy⟩
        · exact Or.inl (List.mem_cons_of_mem _ h2)
        · exact Or.inr ⟨z, List.mem_cons_of_mem _ hz, hy⟩

/-! ## SPIR-V instruction model

`spv_parsed_instruction_t` as consumed by `RunShapeInference`: opcode,
result id (0 = none), type id and the single-word operands.  The opcode and
decoration constants are the actual SPIR-V values used via `spirv.hpp11`. -/

structure SpvInstr where
  opcode : Nat
  resultId : Nat
  typeId : Nat
  operands : List Nat
deriving DecidableEq, Repr

def opVariableCode : Nat := 59
def opDecorateCode : Nat := 71
def opConstantCode : Nat := 43
def opConstantCompositeCode : Nat := 44
def opTypeTensorARMCode : Nat := 4163
def decorationBindingCode : Nat := 33
def decorationDescriptorSetCode : Nat := 34

/-- `GetSingleWordOperand` (asserts the operand exists and is one word;
`none` models the failed assertion). -/
def getSingleWordOperand (i : SpvInstr) (idx : Nat) : Option Nat :=
  i.operands.get? idx

/-- `IdToDeclarationInstructionIdx` built by the `spvBinaryParse` callback:
maps a result id to the index of (the last) instruction declaring it. -/
def buildIdToDeclGo (i : Nat) : List SpvInstr → List (Nat × Nat)
  | [] => []
  | inst :: rest =>
    let m := buildIdToDeclGo (i + 1) rest
    -- later `Add` calls overwrite, so an entry from `rest` wins
    if inst.resultId ≠ 0 ∧ assocFind m inst.resultId = none then
      (inst.resultId, i) :: m
    else m

def buildIdToDecl (instrs : List SpvInstr) : List (Nat × Nat) :=
  buildIdToDeclGo 0 instrs

/-- `IdToDecorations` built by the parse callback from `OpDecorate`
instructions carrying a Binding or DescriptorSet decoration. -/
def buildIdToDecorations (instrs : List SpvInstr) : List ((Nat × Nat) × Nat) :=
  instrs.foldl
    (fun m inst =>
      if inst.opcode = opDecorateCode ∧ 3 ≤ inst.operands.length then
        match inst.operands.get? 0, inst.operands.get? 1, inst.operands.get? 2 with
        | some did, some kind, some value =>
          if kind = decorationBindingCode ∨ kind = decorationDescriptorSetCode then
            assocUpd m (did, kind) value
          else m
        | _, _, _ => m
      else m)
    []

def findDecl (instrs : List SpvInstr) (idToDecl : List (Nat × Nat)) (id : Nat) :
    Option SpvInstr :=
  (assocFind idToDecl id).bind (fun i => instrs.get? i)

/-- The dimension-collection loop of the extraction: a dimension whose
declaration is not `OpConstant` is skipped (`continue`); a missing
declaration or operand is an unguarded dereference (`none` = crash). -/
def extractDims (instrs : List SpvInstr) (idToDecl : List (Nat × Nat)) :
    List Nat → Option (List Int)
  | [] => some []
  | dimId :: rest =>
    match findDecl instrs idToDecl dimId with
    | none => none
    | some dimDecl =>
      if dimDecl.opcode = opConstantCode then
        match getSingleWordOperand dimDecl 2 with
        | none => none
        | some v => (extractDims instrs idToDecl rest).map (fun s => (Int.ofNat v) :: s)
      else extractDims instrs idToDecl rest

/-- Extraction of one `OpVariable` (lines 137-177 of
NNERuntimeRDGMLExtensionsForVulkanShapeInference.cpp).
`none` = crash (unguarded `*Find` dereference / failed `check`);
`some none` = the variable is skipped (`continue`);
`some (some entry)` = an `OutputShapes` entry. -/
def extractVariable (instrs : List SpvInstr) (idToDecl : List (Nat × Nat))
    (decorations : List ((Nat × Nat) × Nat)) (inst : SpvInstr) :
    Option (Option ((Nat × Nat) × List Int)) :=
  match findDecl instrs idToDecl inst.resultId with
  | none => none
  | some varDecl =>
    match findDecl instrs idToDecl varDecl.typeId with
    | none => none
    | some ptrDecl =>
      match getSingleWordOperand ptrDecl 2 with
      | none => none
      | some target =>
        match findDecl instrs idToDecl target with
        | none => none
        | some tensorTypeDecl =>
          if tensorTypeDecl.opcode = opTypeTensorARMCode then
            match getSingleWordOperand tensorTypeDecl 3 with
            | none => none
            | some shapeId =>
              match findDecl instrs idToDecl shapeId with
              | none => none
              | some shapeDecl =>
                if shapeDecl.opcode = opConstantCompositeCode then
                  match extractDims instrs idToDecl (shapeDecl.operands.drop 2) with
                  | none => none
                  | some shape =>
                    match assocFind decorations (inst.resultId, decorationDescriptorSetCode),
                          assocFind decorations (inst.resultId, decorationBindingCode) with
                    | some ds, some b => some (some ((ds, b), shape))
                    | _, _ => none
                else some none
          else some none

def extractLoop (instrs : List SpvInstr) (idToDecl : List (Nat × Nat))
    (decorations : List ((Nat × Nat) × Nat)) :
    List SpvInstr → Option (List ((Nat × Nat) × List Int))
  | [] => some []
  | inst :: rest =>
    if inst.opcode = opVariableCode then
      match extractVariable instrs idToDecl decorations inst with
      | none => none
      | some none => extractLoop instrs idToDecl decorations rest
      | some (some entry) =>
        (extractLoop instrs idToDecl decorations rest).map
          (fun m => assocUpd m entry.1 entry.2)
    else extractLoop instrs idToDecl decorations rest

/-- The output-shape extraction over the optimized binary: the loop at
lines 134-178, using the caches built by the parse callback. -/
def extractOutputShapes (instrs : List SpvInstr) :
    Option (List ((Nat × Nat) × List Int)) :=
  extractLoop instrs (buildIdToDecl instrs) (buildIdToDecorations instrs) instrs

structure ShapeInferenceResults where
  success : Bool
  newCode : List SpvInstr
  outputShapes : List ((Nat × Nat) × List Int)
deriving DecidableEq, Repr

/-- The external SPIRV-Tools graph-shape pass (`spvOptimizerRun` plus the
re-parse): an external collaborator, therefore a parameter.  `none` models a
rejected transform (or parse failure), which `RunShapeInference` reports as
`Success = false`. -/
def SpirvOptimizer : Type :=
  List SpvInstr → List ((Nat × Nat) × List Int) → Option (List SpvInstr)

/-- `RunShapeInference`: run the external pass, then extract output shapes
from the transformed code.  `none` = crash inside the extraction. -/
def runShapeInference (optimizer : SpirvOptimizer) (code : List SpvInstr)
    (inputShapes : List ((Nat × Nat) × List Int)) : Option ShapeInferenceResults :=
  match optimizer code inputShapes with
  | none => some { success := false, newCode := [], outputShapes := [] }
  | some newCode =>
    match extractOutputShapes newCode with
    | none => none
    | some m => some { success := true, newCode := newCode, outputShapes := m }

/-! ## VGF container model and `Create`
(NNERuntimeRDGMLExtensionsForVulkanModel.cpp, lines 68-439)

The decoder accessors of the external VGF library are modelled by reading
fields of a `Container` value; the validation logic, id assignment and
graph construction are embedded from the source. -/

def VK_FORMAT_R8_SINT : Nat := 14
def VK_FORMAT_R32_SFLOAT : Nat := 100

inductive ENNETensorDataType where
  | Float
  | Int8
  | None
deriving DecidableEq, Repr

def vkFormatToNNETensorDataType (f : Nat) : ENNETensorDataType :=
  if f = VK_FORMAT_R32_SFLOAT then ENNETensorDataType.Float
  else if f = VK_FORMAT_R8_SINT then ENNETensorDataType.Int8
  else ENNETensorDataType.None

def getNumBytesPerElement (f : Nat) : Nat :=
  if f = VK_FORMAT_R32_SFLOAT then 4
  else if f = VK_FORMAT_R8_SINT then 1
  else 0

inductive MrtCategory where
  | input
  | output
  | intermediate
  | constant
  | other
deriving DecidableEq, Repr

inductive ModuleType where
  | graph
  | compute
deriving DecidableEq, Repr

structure SectionInfo where
  offset : Nat
  size : Nat
deriving DecidableEq, Repr

structure ResourceEntry where
  format : Nat
  dims : List Int
  strides : List Int
  category : MrtCategory
deriving DecidableEq, Repr

structure BindingSlot where
  mrtIndex : Nat
  bindingId : Nat
deriving DecidableEq, Repr

structure ModuleEntry where
  moduleType : ModuleType
  code : List SpvInstr
  entryPoint : String
deriving DecidableEq, Repr

structure SegmentEntry where
  name : String
  moduleIndex : Nat
  segmentType : ModuleType
  inputBindings : List BindingSlot
  outputBindings : List BindingSlot
  descriptorSetInfoCount : Nat
  pushConstantRangeCount : Nat
  constantIndexes : List Nat
deriving DecidableEq, Repr

structure ConstantEntry where
  mrtIndex : Nat
deriving DecidableEq, Repr

structure Container where
  headerValid : Bool
  headerCompatible : Bool
  sections : List SectionInfo
  bufferLen : Nat
  modules : List ModuleEntry
  resources : List ResourceEntry
  modelInputs : List BindingSlot
  modelOutputs : List BindingSlot
  segments : List SegmentEntry
  constants : List ConstantEntry
deriving DecidableEq, Repr

inductive CreateError where
  | invalidHeader
  | incompatibleHeader
  | sectionOutOfBounds
  | stridesNotSupported
  | resourceIndexOutOfBounds
  | invalidEndpointResourceType
  | nonGraphSegment
  | segmentResourceIndexOutOfBounds
  | invalidSegmentResourceType
  | descriptorSetsCountUnexpected
  | pushConstantsNotSupported
  | constantIdxOutOfBounds
  -- undefined behaviour in the C++: a read past the end of the constant
  -- table (the guard lets an index equal to the table size through)
  | oobConstantTableRead
  | constantResourceIdxOutOfBounds
  -- undefined behaviour: the module index from the sequence table is used
  -- without any bound check
  | oobModuleTableRead
  | nonGraphModule
  | missingSpirvCode
deriving DecidableEq, Repr

/-- `FResourceDesc`: transient per-resource data built during parsing. -/
structure ResourceDesc where
  dataType : ENNETensorDataType
  dims : List Int
  tensorId : Option Nat
deriving DecidableEq, Repr

/-- `FTensorInfoUnshaped`: retained description of an input/output/
intermediate tensor; `-1` means "no model input (resp. output) index". -/
structure FTensorInfoUnshaped where
  modelInputIdx : Int := -1
  modelOutputIdx : Int := -1
  format : Nat
deriving DecidableEq, Repr

def FTensorInfoUnshaped.IsIntermediate (t : FTensorInfoUnshaped) : Bool :=
  t.modelInputIdx = -1 ∧ t.modelOutputIdx = -1

inductive EBindingKind where
  | Input
  | Output
deriving DecidableEq, Repr

structure FBinding where
  vulkanBindingIdx : Nat
  tensorId : Nat
  bindingKind : EBindingKind
deriving DecidableEq, Repr

structure FConstantInfo where
  constantId : Nat
  tensorDims : List Int
deriving DecidableEq, Repr

structure FSegmentUnshaped where
  name : String
  bindings : List FBinding
  constantInfos : List FConstantInfo
  code : List SpvInstr
  entryPoint : String
deriving DecidableEq, Repr

structure FModelUnshaped where
  tensorInfosUnshaped : List FTensorInfoUnshaped
  inputSymbolicCount : Nat
  outputSymbolicCount : Nat
  segmentsUnshaped : List FSegmentUnshaped
deriving DecidableEq, Repr

def isTensorCategory (c : MrtCategory) : Bool :=
  c = MrtCategory.input ∨ c = MrtCategory.output ∨ c = MrtCategory.intermediate

/-- Resource-table pass (lines 143-209): normalize dimensions, reject
strides, and assign the next consecutive `TensorId` to every
input/output/intermediate entry. -/
def processResourcesGo (infos : List FTensorInfoUnshaped) :
    List ResourceEntry →
    Except CreateError (List ResourceDesc × List FTensorInfoUnshaped)
  | [] => Except.ok ([], infos)
  | r :: rest =>
    if r.strides.length > 0 then Except.error CreateError.stridesNotSupported
    else if isTensorCategory r.category then
      match processResourcesGo (infos ++ [{ format := r.format }]) rest with
      | Except.error e => Except.error e
      | Except.ok (descs, infosOut) =>
        Except.ok
          ({ dataType := vkFormatToNNETensorDataType r.format,
             dims := r.dims.map (fun x => if x ≤ 0 then (-1 : Int) else x),
             tensorId := some infos.length } :: descs,
           infosOut)
    else
      match processResourcesGo infos rest with
      | Except.error e => Except.error e
      | Except.ok (descs, infosOut) =>
        Except.ok
          ({ dataType := vkFormatToNNETensorDataType r.format,
             dims := r.dims.map (fun x => if x ≤ 0 then (-1 : Int) else x),
             tensorId := none } :: descs, infosOut)

def processResources (rs : List ResourceEntry) :
    Except CreateError (List ResourceDesc × List FTensorInfoUnshaped) :=
  processResourcesGo [] rs

/-- `ProcessModelEndpoints` (lines 212-244): resolve each model input/output
binding slot to its `TensorId` and record the binding position as that
tensor's model input (resp. output) index. -/
def processEndpointsGo (descs : List ResourceDesc) (isInput : Bool) (idx : Nat)
    (infos : List FTensorInfoUnshaped) :
    List BindingSlot → Except CreateError (List FTensorInfoUnshaped)
  | [] => Except.ok infos
  | slot :: rest =>
    match descs.get? slot.mrtIndex with
    | none => Except.error CreateError.resourceIndexOutOfBounds
    | some d =>
      match d.tensorId with
      | none => Except.error CreateError.invalidEndpointResourceType
      | some tid =>
        let infos2 := updateNth infos tid (fun t =>
          if isInput then { t with modelInputIdx := Int.ofNat idx }
          else { t with modelOutputIdx := Int.ofNat idx })
        processEndpointsGo descs isInput (idx + 1) infos2 rest

/-- `ProcessSegmentEndpoints` (lines 290-321). -/
def processSegmentEndpoints (descs : List ResourceDesc) (kind : EBindingKind) :
    List BindingSlot → Except CreateError (List FBinding)
  | [] => Except.ok []
  | slot :: rest =>
    match descs.get? slot.mrtIndex with
    | none => Except.error CreateError.segmentResourceIndexOutOfBounds
    | some d =>
      match d.tensorId with
      | none => Except.error CreateError.invalidSegmentResourceType
      | some tid =>
        match processSegmentEndpoints descs kind rest with
        | Except.error e => Except.error e
        | Except.ok out =>
          Except.ok ({ vulkanBindingIdx := slot.bindingId, tensorId := tid,
                       bindingKind := kind } :: out)

/-- Segment-constant gathering (lines 352-387).  NOTE: the source guard is
`ModelConstantIdx > NumModelConstants` (strict), so an index equal to the
table size slips past the guard and the decoder reads one entry past the
end of the constant table; that undefined behaviour appears here as the
distinguished outcome `oobConstantTableRead`. -/
def processSegmentConstants (descs : List ResourceDesc)
    (constants : List ConstantEntry) (pos : Nat) :
    List Nat → Except CreateError (List FConstantInfo)
  | [] => Except.ok []
  | idx :: rest =>
    if idx > constants.length then Except.error CreateError.constantIdxOutOfBounds
    else
      match constants.get? idx with
      | none => Except.error CreateError.oobConstantTableRead
      | some ce =>
        match descs.get? ce.mrtIndex with
        | none => Except.error CreateError.constantResourceIdxOutOfBounds
        | some d =>
          match processSegmentConstants descs constants (pos + 1) rest with
          | Except.error e => Except.error e
          | Except.ok out =>
            Except.ok ({ constantId := pos, tensorDims := d.dims } :: out)

/-- One iteration of the sequence-table loop (lines 263-436), in source
order: segment type, input bindings, output bindings, descriptor-set count,
push-constant ranges, constants, module type, module code. -/
def processSegment (descs : List ResourceDesc) (modules : List ModuleEntry)
    (constants : List ConstantEntry) (seg : SegmentEntry) :
    Except CreateError FSegmentUnshaped :=
  if seg.segmentType = ModuleType.graph then
    match processSegmentEndpoints descs EBindingKind.Input seg.inputBindings with
    | Except.error e => Except.error e
    | Except.ok bIn =>
      match processSegmentEndpoints descs EBindingKind.Output seg.outputBindings with
      | Except.error e => Except.error e
      | Except.ok bOut =>
        if seg.descriptorSetInfoCount = 1 then
          if seg.pushConstantRangeCount = 0 then
            match processSegmentConstants descs constants 0 seg.constantIndexes with
            | Except.error e => Except.error e
            | Except.ok cInfos =>
              match modules.get? seg.moduleIndex with
              | none => Except.error CreateError.oobModuleTableRead
              | some m =>
                if m.moduleType = ModuleType.graph then
                  if m.code.isEmpty then Except.error CreateError.missingSpirvCode
                  else
                    Except.ok { name := seg.name, bindings := bIn ++ bOut,
                                constantInfos := cInfos, code := m.code,
                                entryPoint := m.entryPoint }
                else Except.error CreateError.nonGraphModule
          else Except.error CreateError.pushConstantsNotSupported
        else Except.error CreateError.descriptorSetsCountUnexpected
  else Except.error CreateError.nonGraphSegment

def processSegments (descs : List ResourceDesc) (modules : List ModuleEntry)
    (constants : List ConstantEntry) :
    List SegmentEntry → Except CreateError (List FSegmentUnshaped)
  | [] => Except.ok []
  | seg :: rest =>
    match processSegment descs modules constants seg with
    | Except.error e => Except.error e
    | Except.ok s =>
      match processSegments descs modules constants rest with
      | Except.error e => Except.error e
      | Except.ok out => Except.ok (s :: out)

/-- Header-section bound check (lines 103-113): every declared section must
satisfy `offset + size <= bufferLen`. -/
def checkSections (sections : List SectionInfo) (bufferLen : Nat) : Bool :=
  sections.all (fun s => s.offset + s.size ≤ bufferLen)

/-- `FNNERuntimeRDGMLExtensionsForVulkanModelUnshaped::Create`. -/
def create (c : Container) : Except CreateError FModelUnshaped :=
  if c.headerValid = false then Except.error CreateError.invalidHeader
  else if c.headerCompatible = false then Except.error CreateError.incompatibleHeader
  else if checkSections c.sections c.bufferLen = false then
    Except.error CreateError.sectionOutOfBounds
  else
    match processResources c.resources with
    | Except.error e => Except.error e
    | Except.ok (descs, infos0) =>
      match processEndpointsGo descs true 0 infos0 c.modelInputs with
      | Except.error e => Except.error e
      | Except.ok infos1 =>
        match processEndpointsGo descs false 0 infos1 c.modelOutputs with
        | Except.error e => Except.error e
        | Except.ok infos2 =>
          match processSegments descs c.modules c.constants c.segments with
          | Except.error e => Except.error e
          | Except.ok segs =>
            Except.ok { tensorInfosUnshaped := infos2,
                        inputSymbolicCount := c.modelInputs.length,
                        outputSymbolicCount := c.modelOutputs.length,
                        segmentsUnshaped := segs }

/-! ## Inversion lemmas for `create` -/

theorem processSegments_ok_mem {descs : List ResourceDesc} {modules : List ModuleEntry}
    {constants : List ConstantEntry} {segs : List SegmentEntry}
    {out : List FSegmentUnshaped}
    (h : processSegments descs modules constants segs = Except.ok out) :
    ∀ seg ∈ segs, ∃ u, processSegment descs modules constants seg = Except.ok u := by
  induction segs generalizing out with
  | nil => intro seg hseg; cases hseg
  | cons s rest ih =>
    intro seg hseg
    unfold processSegments at h
    cases hs : processSegment descs modules constants s with
    | error e => rw [hs] at h; cases h
    | ok u =>
      rw [hs] at h
      cases hr : processSegments descs modules constants rest with
      | error e => rw [hr] at h; cases h
      | ok out2 =>
        rcases List.mem_cons.mp hseg with rfl | hmem
        · exact ⟨u, hs⟩
        · exact ih hr seg hmem

theorem processSegment_ok_descCount {descs : List ResourceDesc}
    {modules : List ModuleEntry} {constants : List ConstantEntry}
    {seg : SegmentEntry} {u : FSegmentUnshaped}
    (h : processSegment descs modules constants seg = Except.ok u) :
    seg.descriptorSetInfoCount = 1 := by
  by_cases hd : seg.descriptorSetInfoCount = 1
  · exact hd
  exfalso
  unfold processSegment at h
  repeat' split at h
  all_goals cases h

theorem create_ok_processSegments {c : Container} {m : FModelUnshaped}
    (h : create c = Except.ok m) :
    ∃ descs segs,
      processSegments descs c.modules c.constants c.segments = Except.ok segs := by
  unfold create at h
  repeat' split at h
  all_goals try (exact absurd h (fun hh => Except.noConfusion hh))
  exact ⟨_, _, by assumption⟩

theorem create_error_of_badSections {c : Container}
    (hcs : checkSections c.sections c.bufferLen = false) :
    ∀ m, create c ≠ Except.ok m := by
  intro m h
  unfold create at h
  repeat' split at h
  all_goals cases h

/-! ## Concrete containers used by the claims -/

def exSpvNop : SpvInstr := { opcode := 0, resultId := 0, typeId := 0, operands := [] }

def exSections : List SectionInfo :=
  [{ offset := 0, size := 0 }, { offset := 0, size := 0 },
   { offset := 0, size := 0 }, { offset := 0, size := 0 }]

def exGraphModule : ModuleEntry :=
  { moduleType := ModuleType.graph, code := [exSpvNop], entryPoint := "main" }

/-- A container whose only segment references constant index 0 while the
constant table has 0 entries: the index equals the table size. -/
def exContainerC3 : Container :=
  { headerValid := true, headerCompatible := true, sections := exSections,
    bufferLen := 0, modules := [exGraphModule], resources := [],
    modelInputs := [], modelOutputs := [],
    segments := [{ name := "seg0", moduleIndex := 0,
                   segmentType := ModuleType.graph, inputBindings := [],
                   outputBindings := [], descriptorSetInfoCount := 1,
                   pushConstantRangeCount := 0, constantIndexes := [0] }],
    constants := [] }

/-- Same container with constant index 1 (strictly past the table size). -/
def exContainerC3strict : Container :=
  { exContainerC3 with
    segments := [{ name := "seg0", moduleIndex := 0,
                   segmentType := ModuleType.graph, inputBindings := [],
                   outputBindings := [], descriptorSetInfoCount := 1,
                   pushConstantRangeCount := 0, constantIndexes := [1] }] }

/-- An otherwise-valid container whose only segment declares a
descriptor-set-info count of 2. -/
def exContainerC4 : Container :=
  { exContainerC3 with
    segments := [{ name := "seg0", moduleIndex := 0,
                   segmentType := ModuleType.graph, inputBindings := [],
                   outputBindings := [], descriptorSetInfoCount := 2,
                   pushConstantRangeCount := 0, constantIndexes := [] }] }

/-- A container declaring a section with `offset + size` past the buffer. -/
def exContainerC4badSection : Container :=
  { exContainerC3 with
    sections := [{ offset := 2, size := 3 }], bufferLen := 4, segments := [] }

/-- Claim C3: an out-of-range constant index in a segment's constant-index
list is claimed to abort construction as a corruption error.  The source
guard at line 360 is `ModelConstantIdx > NumModelConstants` (strict), so an
index exactly equal to the number of constant-table entries passes the
guard and `mlsdk_decoder_constant_table_get_mrt_index` then reads one entry
past the end of the constant table (undefined behaviour) instead of
aborting with the corruption error; a strictly larger index is rejected as
the claim states.  Evaluating the embedded `create` at both failing and
properly-rejected inputs exhibits the divergence. -/
theorem C3_constant_index_guard_off_by_one :
    create exContainerC3 = Except.error CreateError.oobConstantTableRead ∧
    (0 > ([] : List ConstantEntry).length) = False ∧
    create exContainerC3strict = Except.error CreateError.constantIdxOutOfBounds := by
  refine ⟨by rfl, by simp, by rfl⟩

/-- Claim C4: a segment with a descriptor-set-info count other than 1 makes
Unshaped Model construction fail ("descriptor sets count unexpected"), and a
section whose `offset + size` exceeds the buffer length fails validation
before any model is constructed. -/
theorem C4_descriptor_sets_and_section_bounds :
    (∀ c : Container, ∀ seg ∈ c.segments, seg.descriptorSetInfoCount ≠ 1 →
      ∀ m, create c ≠ Except.ok m) ∧
    (create exContainerC4 = Except.error CreateError.descriptorSetsCountUnexpected) ∧
    (∀ c : Container, ∀ s ∈ c.sections, c.bufferLen < s.offset + s.size →
      ∀ m, create c ≠ Except.ok m) := by
  refine ⟨?_, by rfl, ?_⟩
  · intro c seg hseg hne m h
    obtain ⟨descs, segs, hsegs⟩ := create_ok_processSegments h
    obtain ⟨u, hu⟩ := processSegments_ok_mem hsegs seg hseg
    exact hne (processSegment_ok_descCount hu)
  · intro c s hs hlen m
    apply create_error_of_badSections
    have : ¬ (s.offset + s.size ≤ c.bufferLen) := by omega
    cases hall : checkSections c.sections c.bufferLen with
    | false => rfl
    | true =>
      exfalso
      exact this (by simpa using (List.all_eq_true.mp hall s hs))

def exEmptyModel : FModelUnshaped :=
  { tensorInfosUnshaped := [], inputSymbolicCount := 0,
    outputSymbolicCount := 0, segmentsUnshaped := [] }

/-- Witness for C4: the universally-quantified parts applied to the concrete
rejected containers. -/
theorem C4_descriptor_sets_and_section_bounds_witness :
    (create exContainerC4 ≠ Except.ok exEmptyModel) ∧
    (create exContainerC4badSection ≠ Except.ok exEmptyModel) := by
  constructor
  · exact C4_descriptor_sets_and_section_bounds.1 exContainerC4
      { name := "seg0", moduleIndex := 0, segmentType := ModuleType.graph,
        inputBindings := [], outputBindings := [], descriptorSetInfoCount := 2,
        pushConstantRangeCount := 0, constantIndexes := [] }
      (by simp [exContainerC4, exContainerC3]) (by decide) _
  · exact C4_descriptor_sets_and_section_bounds.2.2 exContainerC4badSection
      { offset := 2, size := 3 }
      (by simp [exContainerC4badSection, exContainerC3]) (by decide) _

/-! ## Claim C5: dense TensorId assignment -/

def countTensorCat (rs : List ResourceEntry) : Nat :=
  (rs.filter (fun r => isTensorCategory r.category)).length

theorem countTensorCat_cons (r : ResourceEntry) (rest : List ResourceEntry) :
    countTensorCat (r :: rest) =
      (if isTensorCategory r.category = true then 1 else 0) + countTensorCat rest := by
  by_cases hr : isTensorCategory r.category = true
  · simp [countTensorCat, hr, List.filter_cons, Nat.add_comm]
  · simp [countTensorCat, hr, List.filter_cons]

theorem processResourcesGo_spec :
    ∀ (rs : List ResourceEntry) (infos : List FTensorInfoUnshaped)
      (descs : List ResourceDesc) (out : List FTensorInfoUnshaped),
    processResourcesGo infos rs = Except.ok (descs, out) →
    out.length = infos.length + countTensorCat rs ∧
    descs.length = rs.length ∧
    (∀ j r, rs.get? j = some r →
      ∃ d, descs.get? j = some d ∧
        d.tensorId = if isTensorCategory r.category = true
          then some (infos.length + countTensorCat (rs.take j)) else none) := by
  intro rs
  induction rs with
  | nil =>
    intro infos descs out h
    unfold processResourcesGo at h
    cases h
    refine ⟨by simp [countTensorCat], by simp, ?_⟩
    intro j r hr
    simp at hr
  | cons r rest ih =>
    intro infos descs out h
    unfold processResourcesGo at h
    by_cases hs : r.strides.length > 0
    · rw [if_pos hs] at h; cases h
    rw [if_neg hs] at h
    by_cases hc : isTensorCategory r.category = true
    · rw [if_pos hc] at h
      cases hrec : processResourcesGo (infos ++ [{ format := r.format }]) rest with
      | error e => rw [hrec] at h; cases h
      | ok p =>
        obtain ⟨descs0, out0⟩ := p
        rw [hrec] at h
        cases h
        obtain ⟨hlen, hdlen, hids⟩ := ih _ _ _ hrec
        refine ⟨?_, ?_, ?_⟩
        · simp at hlen
          rw [hlen, countTensorCat_cons, if_pos hc]; omega
        · simpa using hdlen
        · intro j rj hj
          cases j with
          | zero =>
            cases hj
            exact ⟨_, rfl, by simp [hc, countTensorCat]⟩
          | succ n =>
            simp only [List.get?] at hj
            obtain ⟨d, hd, hid⟩ := hids n rj hj
            refine ⟨d, by simpa using hd, ?_⟩
            rw [hid]
            by_cases hcj : isTensorCategory rj.category = true
            · rw [if_pos hcj, if_pos hcj]
              simp only [List.take_succ_cons, countTensorCat_cons, if_pos hc,
                List.length_append, List.length_cons, List.length_nil]
              congr 1
              omega
            · rw [if_neg hcj, if_neg hcj]
    · rw [if_neg hc] at h
      cases hrec : processResourcesGo infos rest with
      | error e => rw [hrec] at h; cases h
      | ok p =>
        obtain ⟨descs0, out0⟩ := p
        rw [hrec] at h
        cases h
        obtain ⟨hlen, hdlen, hids⟩ := ih _ _ _ hrec
        refine ⟨?_, ?_, ?_⟩
        · rw [hlen, countTensorCat_cons, if_neg hc]; omega
        · simpa using hdlen
        · intro j rj hj
          cases j with
          | zero =>
            cases hj
            exact ⟨_, rfl, by simp [hc, countTensorCat]⟩
          | succ n =>
            simp only [List.get?] at hj
            obtain ⟨d, hd, hid⟩ := hids n rj hj
            refine ⟨d, by simpa using hd, ?_⟩
            rw [hid]
            simp only [List.take_succ_cons, countTensorCat_cons, if_neg hc]
            simp

theorem processEndpointsGo_length :
    ∀ (slots : List BindingSlot) (descs : List ResourceDesc) (b : Bool) (i : Nat)
      (infos out : List FTensorInfoUnshaped),
    processEndpointsGo descs b i infos slots = Except.ok out →
    out.length = infos.length := by
  intro slots
  induction slots with
  | nil =>
    intro descs b i infos out h
    unfold processEndpointsGo at h
    cases h
    rfl
  | cons slot rest ih =>
    intro descs b i infos out h
    unfold processEndpointsGo at h
    repeat' split at h
    all_goals try (exact absurd h (fun hh => Except.noConfusion hh))
    all_goals exact (ih _ _ _ _ _ h).trans (updateNth_length _ _ _)

theorem create_ok_tensorInfos {c : Container} {m : FModelUnshaped}
    (h : create c = Except.ok m) :
    ∃ descs infos0 infos1,
      processResources c.resources = Except.ok (descs, infos0) ∧
      processEndpointsGo descs true 0 infos0 c.modelInputs = Except.ok infos1 ∧
      processEndpointsGo descs false 0 infos1 c.modelOutputs =
        Except.ok m.tensorInfosUnshaped := by
  unfold create at h
  repeat' split at h
  all_goals try (exact absurd h (fun hh => Except.noConfusion hh))
  cases h
  exact ⟨_, _, _, by assumption, by assumption, by assumption⟩

/-- Claim C5: for every container that parses successfully, the number of
TensorInfo ids equals the number of resource-table entries whose category is
input, output or intermediate; ids are dense consecutive integers starting
at 0, assigned in first-seen parse order (the id of the j-th entry is the
number of tensor-category entries seen before it); entries of any other
category receive no id. -/
theorem C5_dense_tensor_ids :
    (∀ (c : Container) (m : FModelUnshaped), create c = Except.ok m →
      m.tensorInfosUnshaped.length = countTensorCat c.resources) ∧
    (∀ (rs : List ResourceEntry) (descs : List ResourceDesc)
       (out : List FTensorInfoUnshaped),
      processResources rs = Except.ok (descs, out) →
      out.length = countTensorCat rs ∧
      descs.length = rs.length ∧
      (∀ j r, rs.get? j = some r →
        ∃ d, descs.get? j = some d ∧
          d.tensorId = if isTensorCategory r.category = true
            then some (countTensorCat (rs.take j)) else none)) := by
  constructor
  · intro c m h
    obtain ⟨descs, infos0, infos1, hr, h1, h2⟩ := create_ok_tensorInfos h
    have e2 := processEndpointsGo_length _ _ _ _ _ _ h2
    have e1 := processEndpointsGo_length _ _ _ _ _ _ h1
    have e0 := (processResourcesGo_spec c.resources [] _ _ hr).1
    simp at e0
    omega
  · intro rs descs out h
    obtain ⟨h1, h2, h3⟩ := processResourcesGo_spec rs [] _ _ h
    refine ⟨by simpa using h1, h2, ?_⟩
    intro j r hj
    obtain ⟨d, hd, hid⟩ := h3 j r hj
    exact ⟨d, hd, by simpa using hid⟩

def exResourcesC5 : List ResourceEntry :=
  [{ format := VK_FORMAT_R32_SFLOAT, dims := [1], strides := [],
     category := MrtCategory.input },
   { format := VK_FORMAT_R8_SINT, dims := [2], strides := [],
     category := MrtCategory.constant },
   { format := VK_FORMAT_R32_SFLOAT, dims := [3], strides := [],
     category := MrtCategory.output }]

def exContainerC5 : Container :=
  { exContainerC3 with
    resources := exResourcesC5,
    modelInputs := [{ mrtIndex := 0, bindingId := 0 }],
    modelOutputs := [{ mrtIndex := 2, bindingId := 1 }],
    segments := [] }

def exModelC5 : FModelUnshaped :=
  { tensorInfosUnshaped :=
      [{ modelInputIdx := 0, modelOutputIdx := -1, format := VK_FORMAT_R32_SFLOAT },
       { modelInputIdx := -1, modelOutputIdx := 0, format := VK_FORMAT_R32_SFLOAT }],
    inputSymbolicCount := 1, outputSymbolicCount := 1, segmentsUnshaped := [] }

def exDescsC5 : List ResourceDesc :=
  [{ dataType := ENNETensorDataType.Float, dims := [1], tensorId := some 0 },
   { dataType := ENNETensorDataType.Int8, dims := [2], tensorId := none },
   { dataType := ENNETensorDataType.Float, dims := [3], tensorId := some 1 }]

/-- Witness for C5 at a concrete three-entry resource table (input,
constant, output): two ids, assigned 0 and 1, none for the constant. -/
theorem C5_dense_tensor_ids_witness :
    exModelC5.tensorInfosUnshaped.length = countTensorCat exResourcesC5 ∧
    exDescsC5.length = exResourcesC5.length :=
  ⟨C5_dense_tensor_ids.1 exContainerC5 exModelC5 (by rfl),
   ((C5_dense_tensor_ids.2 exResourcesC5 exDescsC5
      [{ format := VK_FORMAT_R32_SFLOAT }, { format := VK_FORMAT_R32_SFLOAT }]
      (by rfl)).2.1)⟩

/-! ## Shaped-model construction
(`FindOrCreateShapedModel`, lines 526-675)

The construction path on a cache miss.  Dimension lists are `int64_t`
(`List Int`); the machine-integer conversions of the `NumBytes` computation
(`Algo::Accumulate` with an `int` accumulator and a `uint64_t` lambda,
`size_t` multiply, `uint32` store) are embedded step by step. -/

/-- `int64`/`int` value converted to `uint64_t` (two's complement). -/
def toUInt64Int (x : Int) : Int := x % (2 ^ 64 : Int)

/-- `uint64_t` value converted (implementation-defined truncation, as on all
relevant targets) to a 32-bit signed `int`. -/
def toInt32Int (x : Int) : Int :=
  if x % (2 ^ 32 : Int) < (2 ^ 31 : Int) then x % (2 ^ 32 : Int)
  else x % (2 ^ 32 : Int) - (2 ^ 32 : Int)

/-- One step of `Algo::Accumulate(ShapeRawS64, 1, [](uint64_t Acc, uint64_t X)
\x7b return Acc * X; \x7d)` with the `int` accumulator of the deduced
template parameter. -/
def accumStep (acc x : Int) : Int :=
  toInt32Int ((toUInt64Int acc * toUInt64Int x) % (2 ^ 64 : Int))

/-- `NumBytes = NumBytesPerElement * Algo::Accumulate(...)` stored into a
`uint32` field. -/
def numBytesFromShape (elemSize : Nat) (dims : List Int) : Nat :=
  ((((elemSize : Int) * toUInt64Int (dims.foldl accumStep 1)) % (2 ^ 64 : Int))
    % (2 ^ 32 : Int)).toNat

structure FTensorInfoShaped where
  format : Nat
  shapeRawS64 : List Int
  numBytes : Nat := 0
deriving DecidableEq, Repr

structure FModelShaped where
  inputTensorShapes : List (List Nat)
  outputTensorShapes : List (List Nat)
  tensorInfosShaped : List FTensorInfoShaped
deriving DecidableEq, Repr

inductive ShapedBuildError where
  -- undefined behaviour in the C++: unchecked index or unguarded
  -- `TMap::Find` dereference
  | crash
  | inferenceFailed
  | unsupportedFormat
deriving DecidableEq, Repr

/-- Initial cloning of the unshaped tensor infos (lines 535-547): model
inputs get the caller-supplied concrete shape (`uint32` dimensions),
everything else starts with no concrete shape.  The index into
`ModelInputShapes` is unchecked in the source. -/
def initShapedInfos (modelInputShapes : List (List Nat)) :
    List FTensorInfoUnshaped → Except ShapedBuildError (List FTensorInfoShaped)
  | [] => Except.ok []
  | tU :: rest =>
    if tU.modelInputIdx = -1 then
      match initShapedInfos modelInputShapes rest with
      | Except.error e => Except.error e
      | Except.ok out =>
        Except.ok ({ format := tU.format, shapeRawS64 := [] } :: out)
    else
      match modelInputShapes.get? tU.modelInputIdx.toNat with
      | none => Except.error ShapedBuildError.crash
      | some s =>
        match initShapedInfos modelInputShapes rest with
        | Except.error e => Except.error e
        | Except.ok out =>
          Except.ok ({ format := tU.format,
                       shapeRawS64 := s.map (fun d => Int.ofNat d) } :: out)

/-- The per-segment input-shape map (lines 558-567): `(descriptor set 0,
Vulkan binding index) -> already-resolved shape` for input bindings only. -/
def buildSegmentInputShapes (infos : List FTensorInfoShaped) :
    List FBinding → Except ShapedBuildError (List ((Nat × Nat) × List Int))
  | [] => Except.ok []
  | b :: rest =>
    match buildSegmentInputShapes infos rest with
    | Except.error e => Except.error e
    | Except.ok m =>
      if b.bindingKind = EBindingKind.Input then
        match infos.get? b.tensorId with
        | none => Except.error ShapedBuildError.crash
        | some t => Except.ok (assocUpd m (0, b.vulkanBindingIdx) t.shapeRawS64)
      else Except.ok m

/-- Write-back of the inferred output shapes (lines 578-588).  The source
dereferences `OutputShapes.Find(...)` without a null check; a missing entry
is the `crash` outcome. -/
def writeBackOutputs (outputShapes : List ((Nat × Nat) × List Int))
    (infos : List FTensorInfoShaped) :
    List FBinding → Except ShapedBuildError (List FTensorInfoShaped)
  | [] => Except.ok infos
  | b :: rest =>
    if b.bindingKind = EBindingKind.Output then
      match assocFind outputShapes (0, b.vulkanBindingIdx) with
      | none => Except.error ShapedBuildError.crash
      | some s =>
        match infos.get? b.tensorId with
        | none => Except.error ShapedBuildError.crash
        | some _ =>
          writeBackOutputs outputShapes
            (updateNth infos b.tensorId (fun t => { t with shapeRawS64 := s })) rest
    else writeBackOutputs outputShapes infos rest

/-- The segment loop (lines 551-646): build the input-shape map, run shape
inference, abort on failure, write the inferred shapes back. -/
def shapeSegments (optimizer : SpirvOptimizer) :
    List FSegmentUnshaped → List FTensorInfoShaped →
    Except ShapedBuildError (List FTensorInfoShaped)
  | [], infos => Except.ok infos
  | seg :: rest, infos =>
    match buildSegmentInputShapes infos seg.bindings with
    | Except.error e => Except.error e
    | Except.ok segInputShapes =>
      match runShapeInference optimizer seg.code segInputShapes with
      | none => Except.error ShapedBuildError.crash
      | some res =>
        if res.success = false then Except.error ShapedBuildError.inferenceFailed
        else
          match writeBackOutputs res.outputShapes infos seg.bindings with
          | Except.error e => Except.error e
          | Except.ok infos2 => shapeSegments optimizer rest infos2

/-- `uint64` (here: sign-converted `int64`) truncated to `uint32` on store
(the `Algo::Transform` at lines 654-655). -/
def int64ToUInt32 (x : Int) : Nat := (x % (2 ^ 32 : Int)).toNat

/-- Model-level output shape list (lines 648-658). -/
def fillOutputShapes (outCount : Nat) :
    List FTensorInfoUnshaped → List FTensorInfoShaped → List (List Nat) → List (List Nat)
  | [], _, acc => acc
  | _, [], acc => acc
  | tU :: restU, tS :: restS, acc =>
    if tU.modelOutputIdx = -1 then fillOutputShapes outCount restU restS acc
    else
      fillOutputShapes outCount restU restS
        (acc.set tU.modelOutputIdx.toNat (tS.shapeRawS64.map int64ToUInt32))

/-- The `NumBytes` loop (lines 660-670): a zero element size is fatal. -/
def computeNumBytesAll :
    List FTensorInfoShaped → Except ShapedBuildError (List FTensorInfoShaped)
  | [] => Except.ok []
  | t :: rest =>
    if getNumBytesPerElement t.format = 0 then
      Except.error ShapedBuildError.unsupportedFormat
    else
      match computeNumBytesAll rest with
      | Except.error e => Except.error e
      | Except.ok out =>
        Except.ok
          ({ t with
             numBytes := numBytesFromShape (getNumBytesPerElement t.format)
               t.shapeRawS64 } :: out)

/-- The cache-miss construction path of `FindOrCreateShapedModel`. -/
def findOrCreateShapedBuild (optimizer : SpirvOptimizer) (m : FModelUnshaped)
    (modelInputShapes : List (List Nat)) : Except ShapedBuildError FModelShaped :=
  match initShapedInfos modelInputShapes m.tensorInfosUnshaped with
  | Except.error e => Except.error e
  | Except.ok infos0 =>
    match shapeSegments optimizer m.segmentsUnshaped infos0 with
    | Except.error e => Except.error e
    | Except.ok infos1 =>
      match computeNumBytesAll infos1 with
      | Except.error e => Except.error e
      | Except.ok infos2 =>
        Except.ok
          { inputTensorShapes := modelInputShapes,
            outputTensorShapes :=
              fillOutputShapes m.outputSymbolicCount m.tensorInfosUnshaped infos1
                (List.replicate m.outputSymbolicCount []),
            tensorInfosShaped := infos2 }

/-! ## Claim C8: the NumBytes computation -/

theorem dvd_2_32_2_64 : (2 ^ 32 : Int) ∣ (2 ^ 64 : Int) := by
  exact pow_dvd_pow 2 (by norm_num)

theorem toUInt64Int_emod32 (x : Int) :
    toUInt64Int x % (2 ^ 32 : Int) = x % (2 ^ 32 : Int) := by
  unfold toUInt64Int
  exact Int.emod_emod_of_dvd x dvd_2_32_2_64

theorem toInt32Int_emod32 (x : Int) :
    toInt32Int x % (2 ^ 32 : Int) = x % (2 ^ 32 : Int) := by
  unfold toInt32Int
  split
  · exact Int.emod_emod_of_dvd x dvd_rfl
  · omega

theorem accumStep_emod32 (acc x : Int) :
    accumStep acc x % (2 ^ 32 : Int) = (acc * x) % (2 ^ 32 : Int) := by
  unfold accumStep
  rw [toInt32Int_emod32, Int.emod_emod_of_dvd _ dvd_2_32_2_64, Int.mul_emod,
    toUInt64Int_emod32, toUInt64Int_emod32, ← Int.mul_emod]

theorem foldl_accumStep_emod32 :
    ∀ (dims : List Int) (acc1 acc2 : Int),
    acc1 % (2 ^ 32 : Int) = acc2 % (2 ^ 32 : Int) →
    (dims.foldl accumStep acc1) % (2 ^ 32 : Int) =
      (acc2 * dims.prod) % (2 ^ 32 : Int) := by
  intro dims
  induction dims with
  | nil => intro acc1 acc2 h; simpa using h
  | cons x rest ih =>
    intro acc1 acc2 h
    have hstep : accumStep acc1 x % (2 ^ 32 : Int) =
        (acc2 * x) % (2 ^ 32 : Int) := by
      rw [accumStep_emod32, Int.mul_emod, h, ← Int.mul_emod]
    calc ((x :: rest).foldl accumStep acc1) % (2 ^ 32 : Int)
        = (rest.foldl accumStep (accumStep acc1 x)) % (2 ^ 32 : Int) := by
          simp [List.foldl_cons]
      _ = ((acc2 * x) * rest.prod) % (2 ^ 32 : Int) := ih _ _ hstep
      _ = (acc2 * (x :: rest).prod) % (2 ^ 32 : Int) := by
          rw [List.prod_cons, mul_assoc]

/-- The step-faithful machine computation of `NumBytes` equals element size
times the exact dimension product, truncated to 32 bits. -/
theorem numBytesFromShape_eq (elemSize : Nat) (dims : List Int) :
    numBytesFromShape elemSize dims =
      (((elemSize : Int) * dims.prod) % (2 ^ 32 : Int)).toNat := by
  unfold numBytesFromShape
  rw [Int.emod_emod_of_dvd _ dvd_2_32_2_64, Int.mul_emod,
    toUInt64Int_emod32, foldl_accumStep_emod32 dims 1 1 rfl, one_mul,
    ← Int.mul_emod]

theorem computeNumBytesAll_mem :
    ∀ (input out : List FTensorInfoShaped),
    computeNumBytesAll input = Except.ok out →
    ∀ t ∈ out, ∃ x ∈ input,
      getNumBytesPerElement x.format ≠ 0 ∧
      t = { x with numBytes :=
              numBytesFromShape (getNumBytesPerElement x.format) x.shapeRawS64 } := by
  intro input
  induction input with
  | nil =>
    intro out h t ht
    unfold computeNumBytesAll at h
    cases h
    cases ht
  | cons x rest ih =>
    intro out h t ht
    unfold computeNumBytesAll at h
    split at h
    · cases h
    · rename_i he
      cases hrec : computeNumBytesAll rest with
      | error e => rw [hrec] at h; cases h
      | ok out0 =>
        rw [hrec] at h
        cases h
        rcases List.mem_cons.mp ht with rfl | hmem
        · exact ⟨x, List.mem_cons_self x rest, he, rfl⟩
        · obtain ⟨y, hy, hy2, hy3⟩ := ih out0 hrec t hmem
          exact ⟨y, List.mem_cons_of_mem _ hy, hy2, hy3⟩

theorem findOrCreateShapedBuild_ok_parts {optimizer : SpirvOptimizer}
    {m : FModelUnshaped} {shapes : List (List Nat)} {sm : FModelShaped}
    (h : findOrCreateShapedBuild optimizer m shapes = Except.ok sm) :
    ∃ infos0 infos1,
      initShapedInfos shapes m.tensorInfosUnshaped = Except.ok infos0 ∧
      shapeSegments optimizer m.segmentsUnshaped infos0 = Except.ok infos1 ∧
      computeNumBytesAll infos1 = Except.ok sm.tensorInfosShaped := by
  unfold findOrCreateShapedBuild at h
  repeat' split at h
  all_goals try (exact absurd h (fun hh => Except.noConfusion hh))
  cases h
  exact ⟨_, _, by assumption, by assumption, by assumption⟩

/-- Claim C8, amended: for every successfully constructed Shaped Model, each
tensor's byte size equals element-size(format) times the product of its
dimensions **truncated to 32 bits** (`NumBytes` is a `uint32`), which equals
the exact product only when that product fits in 32 bits; and a zero element
size (unsupported format) makes construction fail, so every tensor of a
returned model has a nonzero element size. -/
theorem C8_numbytes_truncated_product :
    ∀ (optimizer : SpirvOptimizer) (m : FModelUnshaped)
      (shapes : List (List Nat)) (sm : FModelShaped),
    findOrCreateShapedBuild optimizer m shapes = Except.ok sm →
    ∀ t ∈ sm.tensorInfosShaped,
      getNumBytesPerElement t.format ≠ 0 ∧
      t.numBytes =
        (((getNumBytesPerElement t.format : Int) * t.shapeRawS64.prod)
          % (2 ^ 32 : Int)).toNat := by
  intro optimizer m shapes sm h t ht
  obtain ⟨infos0, infos1, h0, h1, h2⟩ := findOrCreateShapedBuild_ok_parts h
  obtain ⟨x, hx, hxe, rfl⟩ := computeNumBytesAll_mem infos1 _ h2 t ht
  exact ⟨hxe, numBytesFromShape_eq _ _⟩

def exOptimizerId : SpirvOptimizer := fun code _ => some code

/-- An unshaped model with a single Int8 model-input tensor, no segments. -/
def exModelC8 : FModelUnshaped :=
  { tensorInfosUnshaped :=
      [{ modelInputIdx := 0, modelOutputIdx := -1, format := VK_FORMAT_R8_SINT }],
    inputSymbolicCount := 1, outputSymbolicCount := 0, segmentsUnshaped := [] }

def exShapesC8 : List (List Nat) := [[65536, 65536]]

def exShapedC8 : FModelShaped :=
  { inputTensorShapes := [[65536, 65536]], outputTensorShapes := [],
    tensorInfosShaped :=
      [{ format := VK_FORMAT_R8_SINT, shapeRawS64 := [65536, 65536],
         numBytes := 0 }] }

/-- Counterexample to C8 as stated: binding the Int8 input to the concrete
shape 65536 x 65536 succeeds, and the constructed tensor's computed byte
size is 0, while element-size x exact-product is 2^32; the `uint32`
`NumBytes` field truncates the 64-bit product. -/
theorem C8_counterexample_numbytes_overflow :
    findOrCreateShapedBuild exOptimizerId exModelC8 exShapesC8 =
      Except.ok exShapedC8 ∧
    ((getNumBytesPerElement VK_FORMAT_R8_SINT : Int) *
      ([(65536 : Int), 65536]).prod = 4294967296) ∧
    exShapedC8.tensorInfosShaped.map (fun t => t.numBytes) = [0] ∧
    (0 : Int) ≠ 4294967296 := by
  refine ⟨by rfl, by decide, by rfl, by norm_num⟩

/-- Witness for the amended C8 at the concrete overflowing model. -/
theorem C8_numbytes_truncated_product_witness :
    getNumBytesPerElement VK_FORMAT_R8_SINT ≠ 0 ∧
    (0 : Nat) =
      (((getNumBytesPerElement VK_FORMAT_R8_SINT : Int) *
        ([(65536 : Int), 65536]).prod) % (2 ^ 32 : Int)).toNat :=
  C8_numbytes_truncated_product exOptimizerId exModelC8 exShapesC8 exShapedC8
    (by rfl)
    { format := VK_FORMAT_R8_SINT, shapeRawS64 := [65536, 65536], numBytes := 0 }
    (by simp [exShapedC8])

/-! ## Claim C9: no -1 dimension survives in a returned shaped model -/

theorem assocUpd_mem {α β : Type} [DecidableEq α] {l : List (α × β)} {k : α}
    {v : β} {p : α × β} (h : p ∈ assocUpd l k v) : p = (k, v) ∨ p ∈ l := by
  unfold assocUpd at h
  rcases List.mem_cons.mp h with h | h
  · exact Or.inl h
  · exact Or.inr (List.mem_of_mem_filter h)

theorem assocFind_mem {α β : Type} [DecidableEq α] {l : List (α × β)} {k : α}
    {v : β} (h : assocFind l k = some v) : (k, v) ∈ l := by
  unfold assocFind at h
  cases hf : l.find? (fun p => decide (p.1 = k)) with
  | none => rw [hf] at h; cases h
  | some p =>
    rw [hf] at h
    cases h
    have hm := List.mem_of_find?_eq_some hf
    have hp := List.find?_some hf
    have : p.1 = k := by simpa using hp
    have : p = (k, p.2) := by
      cases p; simp_all
    rw [← this]
    exact hm

def NonnegDims (s : List Int) : Prop := ∀ d ∈ s, 0 ≤ d

def NonnegMap (m : List ((Nat × Nat) × List Int)) : Prop :=
  ∀ p ∈ m, NonnegDims p.2

def NonnegInfos (infos : List FTensorInfoShaped) : Prop :=
  ∀ t ∈ infos, NonnegDims t.shapeRawS64

theorem extractDims_nonneg {instrs : List SpvInstr} {idToDecl : List (Nat × Nat)} :
    ∀ {ids : List Nat} {s : List Int},
    extractDims instrs idToDecl ids = some s → NonnegDims s := by
  intro ids
  induction ids with
  | nil =>
    intro s h
    unfold extractDims at h
    cases h
    intro d hd
    cases hd
  | cons dimId rest ih =>
    intro s h
    unfold extractDims at h
    split at h
    · cases h
    · split at h
      · split at h
        · cases h
        · cases hr : extractDims instrs idToDecl rest with
          | none => rw [hr] at h; cases h
          | some s0 =>
            rw [hr] at h
            simp only [Option.map] at h
            cases h
            intro d hd
            rcases List.mem_cons.mp hd with rfl | hmem
            · exact Int.ofNat_nonneg _
            · exact ih hr d hmem
      · exact ih h

theorem extractVariable_nonneg {instrs : List SpvInstr}
    {idToDecl : List (Nat × Nat)} {decorations : List ((Nat × Nat) × Nat)}
    {inst : SpvInstr} {entry : (Nat × Nat) × List Int}
    (h : extractVariable instrs idToDecl decorations inst = some (some entry)) :
    NonnegDims entry.2 := by
  unfold extractVariable at h
  repeat' split at h
  all_goals try (cases h)
  all_goals exact extractDims_nonneg (by assumption)

theorem extractLoop_nonneg {instrs : List SpvInstr}
    {idToDecl : List (Nat × Nat)} {decorations : List ((Nat × Nat) × Nat)} :
    ∀ {work : List SpvInstr} {m : List ((Nat × Nat) × List Int)},
    extractLoop instrs idToDecl decorations work = some m → NonnegMap m := by
  intro work
  induction work with
  | nil =>
    intro m h
    unfold extractLoop at h
    cases h
    intro p hp
    cases hp
  | cons inst rest ih =>
    intro m h
    unfold extractLoop at h
    split at h
    · split at h
      · cases h
      · exact ih h
      · rename_i entry hv
        cases hr : extractLoop instrs idToDecl decorations rest with
        | none => rw [hr] at h; cases h
        | some m0 =>
          rw [hr] at h
          simp only [Option.map] at h
          cases h
          intro p hp
          rcases assocUpd_mem hp with rfl | hmem
          · exact extractVariable_nonneg hv
          · exact ih hr p hmem
    · exact ih h

theorem runShapeInference_nonneg {optimizer : SpirvOptimizer}
    {code : List SpvInstr} {inputShapes : List ((Nat × Nat) × List Int)}
    {res : ShapeInferenceResults}
    (h : runShapeInference optimizer code inputShapes = some res) :
    NonnegMap res.outputShapes := by
  unfold runShapeInference at h
  split at h
  · cases h
    intro p hp
    cases hp
  · split at h
    · cases h
    · rename_i m he
      cases h
      exact extractLoop_nonneg he

theorem initShapedInfos_nonneg {shapes : List (List Nat)} :
    ∀ {tus : List FTensorInfoUnshaped} {out : List FTensorInfoShaped},
    initShapedInfos shapes tus = Except.ok out → NonnegInfos out := by
  intro tus
  induction tus with
  | nil =>
    intro out h
    unfold initShapedInfos at h
    cases h
    intro t ht
    cases ht
  | cons tU rest ih =>
    intro out h
    unfold initShapedInfos at h
    split at h
    · split at h
      · cases h
      · rename_i out0 hrec
        cases h
        intro t ht
        rcases List.mem_cons.mp ht with rfl | hmem
        · intro d hd; cases hd
        · exact ih hrec t hmem
    · split at h
      · cases h
      · split at h
        · cases h
        · rename_i out0 hrec
          cases h
          intro t ht
          rcases List.mem_cons.mp ht with rfl | hmem
          · intro d hd
            simp only [List.mem_map] at hd
            obtain ⟨n, hn, rfl⟩ := hd
            exact Int.ofNat_nonneg n
          · exact ih hrec t hmem

theorem writeBackOutputs_nonneg {outputShapes : List ((Nat × Nat) × List Int)}
    (hmap : NonnegMap outputShapes) :
    ∀ {bindings : List FBinding} {infos out : List FTensorInfoShaped},
    NonnegInfos infos →
    writeBackOutputs outputShapes infos bindings = Except.ok out →
    NonnegInfos out := by
  intro bindings
  induction bindings with
  | nil =>
    intro infos out hinf h
    unfold writeBackOutputs at h
    cases h
    exact hinf
  | cons b rest ih =>
    intro infos out hinf h
    unfold writeBackOutputs at h
    split at h
    · split at h
      · cases h
      · split at h
        · cases h
        · refine ih ?_ h
          intro y hy
          rcases updateNth_mem hy with hy2 | ⟨x, hx, rfl⟩
          · exact hinf y hy2
          · exact hmap _ (assocFind_mem (by assumption))
    · exact ih hinf h

theorem shapeSegments_nonneg {optimizer : SpirvOptimizer} :
    ∀ {segs : List FSegmentUnshaped} {infos out : List FTensorInfoShaped},
    NonnegInfos infos →
    shapeSegments optimizer segs infos = Except.ok out →
    NonnegInfos out := by
  intro segs
  induction segs with
  | nil =>
    intro infos out hinf h
    unfold shapeSegments at h
    cases h
    exact hinf
  | cons seg rest ih =>
    intro infos out hinf h
    unfold shapeSegments at h
    split at h
    · cases h
    · split at h
      · cases h
      · split at h
        · cases h
        · split at h
          · cases h
          · exact ih (writeBackOutputs_nonneg
              (runShapeInference_nonneg (by assumption)) hinf (by assumption)) h

theorem computeNumBytesAll_shape_mem {input out : List FTensorInfoShaped}
    (h : computeNumBytesAll input = Except.ok out) :
    ∀ t ∈ out, ∃ x ∈ input, t.shapeRawS64 = x.shapeRawS64 := by
  intro t ht
  obtain ⟨x, hx, hxe, rfl⟩ := computeNumBytesAll_mem input out h t ht
  exact ⟨x, hx, rfl⟩

/-- Claim C9: no tensor of a successfully returned Shaped Model retains an
unknown dimension: every stored dimension is a nonnegative value (seeded
either from the caller's `uint32` input shapes or from the `uint32`
constants extracted by shape inference), in particular never -1. -/
theorem C9_no_unknown_dimensions :
    ∀ (optimizer : SpirvOptimizer) (m : FModelUnshaped)
      (shapes : List (List Nat)) (sm : FModelShaped),
    findOrCreateShapedBuild optimizer m shapes = Except.ok sm →
    ∀ t ∈ sm.tensorInfosShaped, ∀ d ∈ t.shapeRawS64, 0 ≤ d ∧ d ≠ -1 := by
  intro optimizer m shapes sm h t ht d hd
  obtain ⟨infos0, infos1, h0, h1, h2⟩ := findOrCreateShapedBuild_ok_parts h
  obtain ⟨x, hx, hshape⟩ := computeNumBytesAll_shape_mem h2 t ht
  have hnn : NonnegInfos infos1 :=
    shapeSegments_nonneg (initShapedInfos_nonneg h0) h1
  have : 0 ≤ d := hnn x hx d (hshape ▸ hd)
  exact ⟨this, by omega⟩

/-- Witness for C9 at the concrete shaped model built for C8's input. -/
theorem C9_no_unknown_dimensions_witness :
    0 ≤ (65536 : Int) ∧ (65536 : Int) ≠ -1 :=
  C9_no_unknown_dimensions exOptimizerId exModelC8 exShapesC8 exShapedC8
    (by rfl)
    { format := VK_FORMAT_R8_SINT, shapeRawS64 := [65536, 65536], numBytes := 0 }
    (by simp [exShapedC8]) 65536 (by simp)

/-! ## Claim C10: validity of the unguarded write-back lookup -/

/-- An unshaped model with one intermediate tensor and one segment that has
a single output binding (binding index 0) and empty kernel code. -/
def exModelC10 : FModelUnshaped :=
  { tensorInfosUnshaped := [{ format := VK_FORMAT_R32_SFLOAT }],
    inputSymbolicCount := 0, outputSymbolicCount := 0,
    segmentsUnshaped :=
      [{ name := "seg0",
         bindings := [{ vulkanBindingIdx := 0, tensorId := 0,
                        bindingKind := EBindingKind.Output }],
         constantInfos := [], code := [], entryPoint := "main" }] }

/-- Counterexample to C10 as stated: `RunShapeInference` reports success on
a transformed module containing no tensor-typed `OpVariable` at all, its
`OutputShapes` map has no entry for (descriptor set 0, binding 0), and the
unguarded `OutputShapes.Find` dereference in `FindOrCreateShapedModel`
is reached with a null pointer (the `crash` outcome of the embedding). -/
theorem C10_counterexample_success_without_entry :
    (runShapeInference exOptimizerId [] []).map (fun r => r.success) = some true ∧
    (runShapeInference exOptimizerId [] []).map
      (fun r => assocFind r.outputShapes (0, 0)) = some none ∧
    findOrCreateShapedBuild exOptimizerId exModelC10 [] =
      Except.error ShapedBuildError.crash :=
  ⟨by rfl, by rfl, by rfl⟩

/-- Claim C10, amended: a successful `RunShapeInference` does not by itself
guarantee that the write-back lookups succeed; the write-back is valid
exactly under the additional condition that the `OutputShapes` map holds an
entry for (descriptor set 0, binding index) of every output binding of the
segment (and the binding's tensor id is in range), in which case the
unguarded dereference is safe. -/
theorem C10_writeback_guarded :
    ∀ (outputShapes : List ((Nat × Nat) × List Int)) (bindings : List FBinding)
      (infos : List FTensorInfoShaped),
    (∀ b ∈ bindings, b.bindingKind = EBindingKind.Output →
      (assocFind outputShapes (0, b.vulkanBindingIdx)).isSome ∧
      b.tensorId < infos.length) →
    ∃ out, writeBackOutputs outputShapes infos bindings = Except.ok out := by
  intro outputShapes bindings
  induction bindings with
  | nil =>
    intro infos h
    exact ⟨infos, rfl⟩
  | cons b rest ih =>
    intro infos h
    by_cases hb : b.bindingKind = EBindingKind.Output
    · obtain ⟨hsome, hlt⟩ := h b (List.mem_cons_self b rest) hb
      obtain ⟨s, hfind⟩ := Option.isSome_iff_exists.mp hsome
      have hget : infos.get? b.tensorId = some (infos.get ⟨b.tensorId, hlt⟩) :=
        List.get?_eq_get hlt
      obtain ⟨out0, hrec⟩ := ih
        (updateNth infos b.tensorId (fun t => { t with shapeRawS64 := s }))
        (fun b2 hb2 hout => by
          obtain ⟨h1, h2⟩ := h b2 (List.mem_cons_of_mem _ hb2) hout
          exact ⟨h1, by rw [updateNth_length]; exact h2⟩)
      refine ⟨out0, ?_⟩
      simp only [writeBackOutputs, hb, hfind, hget]
      simpa using hrec
    · obtain ⟨out0, hrec⟩ := ih infos
        (fun b2 hb2 hout => h b2 (List.mem_cons_of_mem _ hb2) hout)
      refine ⟨out0, ?_⟩
      simp only [writeBackOutputs, hb]
      simpa [hb] using hrec

/-- Witness for the amended C10: a one-entry map covering the one output
binding makes the write-back succeed. -/
theorem C10_writeback_guarded_witness :
    ∃ out, writeBackOutputs [((0, 0), [2])]
      [{ format := VK_FORMAT_R32_SFLOAT, shapeRawS64 := [] }]
      [{ vulkanBindingIdx := 0, tensorId := 0,
         bindingKind := EBindingKind.Output }] = Except.ok out :=
  C10_writeback_guarded [((0, 0), [2])]
    [{ vulkanBindingIdx := 0, tensorId := 0, bindingKind := EBindingKind.Output }]
    [{ format := VK_FORMAT_R32_SFLOAT, shapeRawS64 := [] }]
    (by decide)

/-! ## Claims C1 and C2: the shaped-model cache
(`ShapedModels : TMap<TArray<FTensorShape>, TWeakPtr<...>>`, lines 516-527
and 672-674)

Object identity is made explicit: every constructed Shaped Model gets a
fresh allocation id; `alive` is the set of ids whose object is still
referenced somewhere (the weak pointer is valid); `store` maps an id to the
object's data (its output shapes etc.).  `build` abstracts the construction
body, which may fail (`FindOrCreateShapedModel` then returns null without
touching the cache). -/

abbrev CacheKey : Type := List (List Nat)

structure ShapedModelCache (α : Type) where
  nextId : Nat
  entries : List (CacheKey × Nat)
  alive : List Nat
  store : List (Nat × α)

/-- The cache-miss path: construct, insert a (weak) entry under the key
(`TMap::Add` overwrites), return a strong handle (the new id is alive). -/
def cacheMiss {α : Type} (build : CacheKey → Option α) (s : ShapedModelCache α)
    (k : CacheKey) : Option Nat × ShapedModelCache α :=
  match build k with
  | none => (none, s)
  | some a =>
    (some s.nextId,
     { nextId := s.nextId + 1,
       entries := assocUpd s.entries k s.nextId,
       alive := s.nextId :: s.alive,
       store := (s.nextId, a) :: s.store })

/-- `FindOrCreateShapedModel`: a live cached entry is returned as is
(shared); a dead or missing entry behaves as a miss. -/
def findOrCreateShapedModelCache {α : Type} (build : CacheKey → Option α)
    (s : ShapedModelCache α) (k : CacheKey) : Option Nat × ShapedModelCache α :=
  match assocFind s.entries k with
  | some cid =>
    if cid ∈ s.alive then (some cid, s)
    else cacheMiss build s k
  | none => cacheMiss build s k

/-- A Shaped Model dies when its last strong reference goes away (all
instances rebind or are destroyed); the weak cache entry stays behind. -/
def releaseShaped {α : Type} (s : ShapedModelCache α) (cid : Nat) :
    ShapedModelCache α :=
  { s with alive := s.alive.filter (fun i => decide (i ≠ cid)) }

def CacheWF {α : Type} (s : ShapedModelCache α) : Prop :=
  (∀ p ∈ s.entries, p.2 < s.nextId) ∧
  (∀ i ∈ s.alive, i < s.nextId) ∧
  (s.entries.map (fun p => p.2)).Nodup

theorem assocFind_upd_self {α β : Type} [DecidableEq α] (l : List (α × β))
    (k : α) (v : β) : assocFind (assocUpd l k v) k = some v := by
  simp [assocFind, assocUpd]

theorem assocFind_upd_ne {α β : Type} [DecidableEq α] (l : List (α × β))
    (k k2 : α) (v : β) (hne : k2 ≠ k) :
    assocFind (assocUpd l k v) k2 = assocFind l k2 := by
  unfold assocFind assocUpd
  rw [List.find?_cons_of_neg _ (by simpa using fun hh => hne hh.symm)]
  congr 1
  induction l with
  | nil => rfl
  | cons p rest ih =>
    by_cases hk : p.1 = k
    · rw [List.filter_cons_of_neg (by simpa using hk),
        List.find?_cons_of_neg _
          (by simpa using fun hh : p.1 = k2 => hne ((hk.symm.trans hh).symm))]
      exact ih
    · rw [List.filter_cons_of_pos (by simpa using hk)]
      by_cases hk2 : p.1 = k2
      · rw [List.find?_cons_of_pos _ (by simpa using hk2),
          List.find?_cons_of_pos _ (by simpa using hk2)]
      · rw [List.find?_cons_of_neg _ (by simpa using hk2),
          List.find?_cons_of_neg _ (by simpa using hk2)]
        exact ih

theorem cacheWF_miss {α : Type} {build : CacheKey → Option α}
    {s : ShapedModelCache α} {k : CacheKey} {cid : Nat}
    {s1 : ShapedModelCache α} (hwf : CacheWF s)
    (h : cacheMiss build s k = (some cid, s1)) :
    cid = s.nextId ∧ CacheWF s1 ∧
    s1.entries = assocUpd s.entries k s.nextId ∧
    s1.alive = s.nextId :: s.alive ∧ s1.nextId = s.nextId + 1 := by
  obtain ⟨hb, ha, hn⟩ := hwf
  unfold cacheMiss at h
  split at h
  · cases h
  · cases h
    refine ⟨rfl, ⟨?_, ?_, ?_⟩, rfl, rfl, rfl⟩
    · intro p hp
      rcases assocUpd_mem hp with rfl | hmem
      · simp
      · exact Nat.lt_succ_of_lt (hb p hmem)
    · intro i hi
      rcases List.mem_cons.mp hi with rfl | hmem
      · exact Nat.lt_succ_self _
      · exact Nat.lt_succ_of_lt (ha i hmem)
    · unfold assocUpd
      rw [List.map_cons]
      refine List.Nodup.cons ?_ (hn.sublist (List.Sublist.map _ (List.filter_sublist _)))
      intro hmem
      simp only [List.mem_map] at hmem
      obtain ⟨p, hp, hp2⟩ := hmem
      have := hb p (List.mem_of_mem_filter hp)
      omega

theorem findOrCreate_hit {α : Type} (build : CacheKey → Option α)
    (s : ShapedModelCache α) (k : CacheKey) (cid : Nat)
    (hfind : assocFind s.entries k = some cid) (halive : cid ∈ s.alive) :
    findOrCreateShapedModelCache build s k = (some cid, s) := by
  unfold findOrCreateShapedModelCache
  rw [hfind]
  simp [halive]

/-- Case analysis on a successful call. -/
theorem findOrCreate_cases {α : Type} {build : CacheKey → Option α}
    {s : ShapedModelCache α} {k : CacheKey} {cid : Nat}
    {s1 : ShapedModelCache α}
    (h : findOrCreateShapedModelCache build s k = (some cid, s1)) :
    (assocFind s.entries k = some cid ∧ cid ∈ s.alive ∧ s1 = s) ∨
    (cacheMiss build s k = (some cid, s1)) := by
  unfold findOrCreateShapedModelCache at h
  split at h
  · split at h
    · cases h
      exact Or.inl ⟨by assumption, by assumption, rfl⟩
    · exact Or.inr h
  · exact Or.inr h

theorem findOrCreate_post {α : Type} {build : CacheKey → Option α}
    {s : ShapedModelCache α} {k : CacheKey} {cid : Nat}
    {s1 : ShapedModelCache α} (hwf : CacheWF s)
    (h : findOrCreateShapedModelCache build s k = (some cid, s1)) :
    assocFind s1.entries k = some cid ∧ cid ∈ s1.alive ∧ CacheWF s1 ∧
    cid < s1.nextId := by
  rcases findOrCreate_cases h with ⟨hf, ha, rfl⟩ | hmiss
  · exact ⟨hf, ha, hwf, hwf.1 _ (assocFind_mem hf)⟩
  · obtain ⟨rfl, hwf1, he, ha, hn⟩ := cacheWF_miss hwf hmiss
    refine ⟨?_, ?_, hwf1, ?_⟩
    · rw [he]; exact assocFind_upd_self _ _ _
    · rw [ha]; exact List.mem_cons_self _ _
    · omega

/-- Frame: a call with key `k` does not disturb the entry of a different
key, and never removes anything from the alive set. -/
theorem findOrCreate_frame {α : Type} {build : CacheKey → Option α}
    {s : ShapedModelCache α} {k : CacheKey} {r : Option Nat}
    {s1 : ShapedModelCache α}
    (h : findOrCreateShapedModelCache build s k = (r, s1)) (k2 : CacheKey)
    (hne : k2 ≠ k) :
    assocFind s1.entries k2 = assocFind s.entries k2 ∧
    ∀ i ∈ s.alive, i ∈ s1.alive := by
  unfold findOrCreateShapedModelCache at h
  have hmiss : ∀ (h2 : cacheMiss build s k = (r, s1)),
      assocFind s1.entries k2 = assocFind s.entries k2 ∧
      ∀ i ∈ s.alive, i ∈ s1.alive := by
    intro h2
    unfold cacheMiss at h2
    split at h2
    · cases h2; exact ⟨rfl, fun i hi => hi⟩
    · cases h2
      exact ⟨assocFind_upd_ne _ _ _ _ hne,
             fun i hi => List.mem_cons_of_mem _ hi⟩
  split at h
  · split at h
    · cases h; exact ⟨rfl, fun i hi => hi⟩
    · exact hmiss h
  · exact hmiss h

theorem lookup_inj {α : Type} {s : ShapedModelCache α} (hwf : CacheWF s)
    {k1 k2 : CacheKey} {id1 id2 : Nat}
    (h1 : assocFind s.entries k1 = some id1)
    (h2 : assocFind s.entries k2 = some id2) (hne : k1 ≠ k2) : id1 ≠ id2 := by
  intro heq
  have hm1 := assocFind_mem h1
  have hm2 := assocFind_mem h2
  have := List.inj_on_of_nodup_map hwf.2.2 hm1 hm2 (by simpa using heq)
  exact hne (congrArg Prod.fst this)

/-- Claim C1: from any well-formed cache state, a first call with shape
tuple `A` returning a Shaped Model makes an immediate repeat with `A` return
the very same object (same id) and leave the cache state untouched (hence
identical output shapes: the same stored object is returned, not a copy);
a call with a different tuple `B` never returns that object, and a further
`A` call after the `B` call still returns the original object. -/
theorem C1_cache_idempotence_and_distinctness {α : Type}
    (build : CacheKey → Option α) (s : ShapedModelCache α) (hwf : CacheWF s)
    (A B : CacheKey) (hAB : A ≠ B) (idA : Nat) (s1 : ShapedModelCache α)
    (h1 : findOrCreateShapedModelCache build s A = (some idA, s1)) :
    (findOrCreateShapedModelCache build s1 A = (some idA, s1)) ∧
    (∀ idB s2, findOrCreateShapedModelCache build s1 B = (some idB, s2) →
      idB ≠ idA ∧ (findOrCreateShapedModelCache build s2 A).1 = some idA) := by
  obtain ⟨hfind, halive, hwf1, hbound⟩ := findOrCreate_post hwf h1
  refine ⟨findOrCreate_hit build s1 A idA hfind halive, ?_⟩
  intro idB s2 h2
  have hne : idB ≠ idA := by
    rcases findOrCreate_cases h2 with ⟨hfB, haB, rfl⟩ | hmiss
    · exact (lookup_inj hwf1 hfB hfind (fun hh => hAB hh.symm))
    · obtain ⟨rfl, _, _, _, _⟩ := cacheWF_miss hwf1 hmiss
      omega
  obtain ⟨hframe, hgrow⟩ := findOrCreate_frame h2 A hAB
  have hfind2 : assocFind s2.entries A = some idA := hframe.trans hfind
  have halive2 : idA ∈ s2.alive := hgrow idA halive
  exact ⟨hne, by rw [findOrCreate_hit build s2 A idA hfind2 halive2]⟩

/-- Claim C2: a cached entry whose Shaped Model has died behaves exactly as
a miss: the call constructs a fresh object (a new id, never the dead one),
overwrites the cache entry with it, and does not resurrect the dead object
(the dead id does not come back to life). -/
theorem C2_dead_entry_is_a_miss {α : Type} (build : CacheKey → Option α)
    (s : ShapedModelCache α) (hwf : CacheWF s) (k : CacheKey) (deadId : Nat)
    (a : α) (hc : assocFind s.entries k = some deadId)
    (hdead : deadId ∉ s.alive) (hbuild : build k = some a) :
    ∃ s1, findOrCreateShapedModelCache build s k = (some s.nextId, s1) ∧
      s.nextId ≠ deadId ∧
      assocFind s1.entries k = some s.nextId ∧
      deadId ∉ s1.alive := by
  have hlt : deadId < s.nextId := hwf.1 _ (assocFind_mem hc)
  have hmiss : cacheMiss build s k =
      (some s.nextId,
       { nextId := s.nextId + 1,
         entries := assocUpd s.entries k s.nextId,
         alive := s.nextId :: s.alive,
         store := (s.nextId, a) :: s.store }) := by
    unfold cacheMiss
    rw [hbuild]
  refine ⟨{ nextId := s.nextId + 1,
            entries := assocUpd s.entries k s.nextId,
            alive := s.nextId :: s.alive,
            store := (s.nextId, a) :: s.store }, ?_, by omega, ?_, ?_⟩
  · unfold findOrCreateShapedModelCache
    rw [hc]
    dsimp only
    rw [if_neg hdead]
    exact hmiss
  · exact assocFind_upd_self _ _ _
  · intro hmem
    rcases List.mem_cons.mp hmem with h | h
    · omega
    · exact hdead h

def exBuildNat : CacheKey → Option Nat := fun _ => some 7

def exCache0 : ShapedModelCache Nat :=
  { nextId := 0, entries := [], alive := [], store := [] }

def exCache1 : ShapedModelCache Nat :=
  { nextId := 1, entries := [([[1]], 0)], alive := [0], store := [(0, 7)] }

/-- A state holding a dead cache entry for key `[[1]]` (object 0 was
released). -/
def exCacheDead : ShapedModelCache Nat :=
  { nextId := 1, entries := [([[1]], 0)], alive := [], store := [(0, 7)] }

/-- Witness for C1: from the empty cache, requesting `[[1]]` builds object
0; repeating `[[1]]` returns it unchanged. -/
theorem C1_cache_idempotence_and_distinctness_witness :
    findOrCreateShapedModelCache exBuildNat exCache1 [[1]] =
      (some 0, exCache1) :=
  (C1_cache_idempotence_and_distinctness exBuildNat exCache0
    (by refine ⟨?_, ?_, ?_⟩ <;> simp [exCache0])
    [[1]] [[2]] (by decide) 0 exCache1 (by rfl)).1

/-- Witness for C2 at the concrete dead-entry state. -/
theorem C2_dead_entry_is_a_miss_witness :
    ∃ s1, findOrCreateShapedModelCache exBuildNat exCacheDead [[1]] =
      (some exCacheDead.nextId, s1) ∧
      exCacheDead.nextId ≠ 0 ∧
      assocFind s1.entries [[1]] = some exCacheDead.nextId ∧
      0 ∉ s1.alive :=
  C2_dead_entry_is_a_miss exBuildNat exCacheDead
    (by refine ⟨?_, ?_, ?_⟩ <;> simp [exCacheDead])
    [[1]] 0 7 (by rfl) (by simp [exCacheDead]) (by rfl)

/-! ## Claim C6: EnqueueRDG validation
(`EnqueueRDG`, lines 845-907: the validation prefix runs before anything is
declared on the graph builder; the effects a call performs on the graph
builder / device are recorded explicitly.) -/

inductive EEnqueueRDGStatus where
  | Ok
  | Fail
deriving DecidableEq, Repr

inductive RDGEffect where
  | allocParameters
  | createIntermediateBuffer (numBytes : Nat)
  | useInputBuffer (idx : Nat)
  | useOutputBuffer (idx : Nat)
  | registerExternalBuffer
  | addPass
deriving DecidableEq, Repr

/-- The per-tensor loop (lines 869-900): intermediates get fresh transient
buffers, inputs/outputs map to the caller's buffers with a minimum-size
check (the buffer is added to the pass parameters before its size check, as
in the source). -/
def enqueueTensorLoop (inputSizes outputSizes : List Nat) :
    List (FTensorInfoUnshaped × FTensorInfoShaped) → List RDGEffect →
    EEnqueueRDGStatus × List RDGEffect
  | [], acc => (EEnqueueRDGStatus.Ok, acc)
  | (tU, tS) :: rest, acc =>
    if tU.IsIntermediate then
      enqueueTensorLoop inputSizes outputSizes rest
        (acc ++ [RDGEffect.createIntermediateBuffer tS.numBytes])
    else if tU.modelInputIdx ≥ 0 then
      let acc2 := acc ++ [RDGEffect.useInputBuffer tU.modelInputIdx.toNat]
      if inputSizes.getD tU.modelInputIdx.toNat 0 < tS.numBytes then
        (EEnqueueRDGStatus.Fail, acc2)
      else enqueueTensorLoop inputSizes outputSizes rest acc2
    else if tU.modelOutputIdx ≥ 0 then
      let acc2 := acc ++ [RDGEffect.useOutputBuffer tU.modelOutputIdx.toNat]
      if outputSizes.getD tU.modelOutputIdx.toNat 0 < tS.numBytes then
        (EEnqueueRDGStatus.Fail, acc2)
      else enqueueTensorLoop inputSizes outputSizes rest acc2
    else enqueueTensorLoop inputSizes outputSizes rest acc

/-- `EnqueueRDG`: reject when unbound (no Shaped Model) or when the supplied
input/output counts differ from the Shaped Model's declared counts — both
before anything is declared; then declare all buffers and the pass. -/
def enqueueRDG (mU : FModelUnshaped) (mS : Option FModelShaped)
    (inputSizes outputSizes : List Nat) : EEnqueueRDGStatus × List RDGEffect :=
  match mS with
  | none => (EEnqueueRDGStatus.Fail, [])
  | some shaped =>
    if inputSizes.length ≠ shaped.inputTensorShapes.length ∨
       outputSizes.length ≠ shaped.outputTensorShapes.length then
      (EEnqueueRDGStatus.Fail, [])
    else
      match enqueueTensorLoop inputSizes outputSizes
        (mU.tensorInfosUnshaped.zip shaped.tensorInfosShaped)
        [RDGEffect.allocParameters] with
      | (EEnqueueRDGStatus.Fail, acc) => (EEnqueueRDGStatus.Fail, acc)
      | (EEnqueueRDGStatus.Ok, acc) =>
        (EEnqueueRDGStatus.Ok,
         acc ++ List.replicate mU.segmentsUnshaped.length
             RDGEffect.registerExternalBuffer ++ [RDGEffect.addPass])

/-- Claim C6: a dispatch call made before shapes were successfully set, or
with an input or output count different from the Shaped Model's declared
counts, fails synchronously with an empty effect list: no graph/device
resource is declared or created. -/
theorem C6_enqueue_validation :
    (∀ (mU : FModelUnshaped) (inputSizes outputSizes : List Nat),
      enqueueRDG mU none inputSizes outputSizes = (EEnqueueRDGStatus.Fail, [])) ∧
    (∀ (mU : FModelUnshaped) (shaped : FModelShaped)
       (inputSizes outputSizes : List Nat),
      (inputSizes.length ≠ shaped.inputTensorShapes.length ∨
       outputSizes.length ≠ shaped.outputTensorShapes.length) →
      enqueueRDG mU (some shaped) inputSizes outputSizes =
        (EEnqueueRDGStatus.Fail, [])) := by
  constructor
  · intro mU inputSizes outputSizes
    rfl
  · intro mU shaped inputSizes outputSizes hmismatch
    unfold enqueueRDG
    dsimp only
    rw [if_pos hmismatch]

def exShapedC6 : FModelShaped :=
  { inputTensorShapes := [[1], [1]], outputTensorShapes := [[1]],
    tensorInfosShaped := [] }

/-- Witness for C6: the spec's literal scenario — 3 supplied inputs against
a model declaring 2 — and a call on an unbound instance. -/
theorem C6_enqueue_validation_witness :
    enqueueRDG exEmptyModel none [] [] = (EEnqueueRDGStatus.Fail, []) ∧
    enqueueRDG exEmptyModel (some exShapedC6) [4, 4, 4] [4] =
      (EEnqueueRDGStatus.Fail, []) :=
  ⟨C6_enqueue_validation.1 exEmptyModel [] [],
   C6_enqueue_validation.2 exEmptyModel exShapedC6 [4, 4, 4] [4]
     (by simp [exShapedC6])⟩

/-! ## Claim C7: the bounded in-flight execution queue
(lines 17-18, 928-940 and 1077-1103)

Executions are identified by ids; a fence oracle `sigs t e` says whether
execution `e`'s fence polls as signaled at wait-iteration `t`.  The
busy-poll loop is given fuel: exhausting the fuel without a slot freeing
models blocking forever (`none`), in which case no Execution record is
created. -/

def MAX_CONCURRENT_EXECUTIONS_PER_INSTANCE : Nat := 10

/-- `CleanupFinishedExecutions`: pop finished executions from the front of
the deque while the front fence polls as signaled. -/
def cleanupFinishedExecutions (sig : Nat → Bool) : List Nat → List Nat
  | [] => []
  | e :: rest =>
    if sig e then cleanupFinishedExecutions sig rest else e :: rest

/-- The `while (InFlightExecutions.Num() >= MAX...)` flush-and-cleanup loop
(lines 931-936). -/
def waitLoop (sigs : Nat → Nat → Bool) : Nat → Nat → List Nat → Option (List Nat)
  | _, 0, q =>
    if q.length ≥ MAX_CONCURRENT_EXECUTIONS_PER_INSTANCE then none else some q
  | t, fuel + 1, q =>
    if q.length ≥ MAX_CONCURRENT_EXECUTIONS_PER_INSTANCE then
      waitLoop sigs (t + 1) fuel (cleanupFinishedExecutions (sigs t) q)
    else some q

/-- The concurrency-control part of the enqueue pass (lines 928-940):
cleanup, wait for a free slot, then push the new Execution record at the
back. -/
def enqueueConcurrency (sigs : Nat → Nat → Bool) (fuel : Nat) (q : List Nat)
    (newId : Nat) : Option (List Nat) :=
  match waitLoop sigs 1 fuel (cleanupFinishedExecutions (sigs 0) q) with
  | none => none
  | some q1 => some (q1 ++ [newId])

theorem cleanupFinishedExecutions_length_le (sig : Nat → Bool) :
    ∀ q : List Nat, (cleanupFinishedExecutions sig q).length ≤ q.length := by
  intro q
  induction q with
  | nil => simp [cleanupFinishedExecutions]
  | cons e rest ih =>
    unfold cleanupFinishedExecutions
    split
    · exact Nat.le_succ_of_le ih
    · simp

theorem cleanupFinishedExecutions_id_of_silent {sig : Nat → Bool}
    (hsig : ∀ e, sig e = false) :
    ∀ q : List Nat, cleanupFinishedExecutions sig q = q := by
  intro q
  cases q with
  | nil => rfl
  | cons e rest => simp [cleanupFinishedExecutions, hsig e]

theorem waitLoop_some_lt {sigs : Nat → Nat → Bool} :
    ∀ {t fuel : Nat} {q q1 : List Nat},
    waitLoop sigs t fuel q = some q1 →
    q1.length < MAX_CONCURRENT_EXECUTIONS_PER_INSTANCE := by
  intro t fuel
  induction fuel generalizing t with
  | zero =>
    intro q q1 h
    unfold waitLoop at h
    split at h
    · cases h
    · cases h; omega
  | succ f ih =>
    intro q q1 h
    unfold waitLoop at h
    split at h
    · exact ih h
    · cases h; omega

theorem waitLoop_none_of_silent {sigs : Nat → Nat → Bool}
    (hsig : ∀ t e, sigs t e = false) :
    ∀ (fuel t : Nat) (q : List Nat),
    q.length ≥ MAX_CONCURRENT_EXECUTIONS_PER_INSTANCE →
    waitLoop sigs t fuel q = none := by
  intro fuel
  induction fuel with
  | zero =>
    intro t q hq
    unfold waitLoop
    rw [if_pos hq]
  | succ f ih =>
    intro t q hq
    unfold waitLoop
    rw [if_pos hq, cleanupFinishedExecutions_id_of_silent (hsig t)]
    exact ih (t + 1) q hq

/-- Claim C7: (a) whenever the enqueue step completes, the resulting
in-flight queue holds at most `MAX_CONCURRENT_EXECUTIONS_PER_INSTANCE` (10)
executions — the push happens only from a state with a free slot, as the
wait loop only exits `some` below the bound; (b) when 10 executions are in
flight and no fence ever signals, the enqueue blocks (no amount of fuel
completes it) and no new Execution record is created. -/
theorem C7_bounded_in_flight_executions :
    (∀ (sigs : Nat → Nat → Bool) (fuel : Nat) (q : List Nat) (newId : Nat)
       (q2 : List Nat),
      enqueueConcurrency sigs fuel q newId = some q2 →
      q2.length ≤ MAX_CONCURRENT_EXECUTIONS_PER_INSTANCE) ∧
    (∀ (sigs : Nat → Nat → Bool) (fuel : Nat) (q : List Nat) (newId : Nat),
      (∀ t e, sigs t e = false) →
      q.length = MAX_CONCURRENT_EXECUTIONS_PER_INSTANCE →
      enqueueConcurrency sigs fuel q newId = none) := by
  constructor
  · intro sigs fuel q newId q2 h
    unfold enqueueConcurrency at h
    split at h
    · cases h
    · cases h
      rename_i q1 hq1
      have := waitLoop_some_lt hq1
      simp only [List.length_append, List.length_cons, List.length_nil]
      omega
  · intro sigs fuel q newId hsig hq
    unfold enqueueConcurrency
    rw [cleanupFinishedExecutions_id_of_silent (hsig 0),
      waitLoop_none_of_silent hsig fuel 1 q (by omega)]

/-- Witness for C7: a full queue of ten executions whose fences never
signal blocks an eleventh enqueue; and a successful enqueue from a
nine-deep queue stays within the bound. -/
theorem C7_bounded_in_flight_executions_witness :
    enqueueConcurrency (fun _ _ => false) 1000
      [0, 1, 2, 3, 4, 5, 6, 7, 8, 9] 10 = none ∧
    ([0, 1, 2, 3, 4, 5, 6, 7, 8, 10] : List Nat).length ≤
      MAX_CONCURRENT_EXECUTIONS_PER_INSTANCE :=
  ⟨C7_bounded_in_flight_executions.2 (fun _ _ => false) 1000
      [0, 1, 2, 3, 4, 5, 6, 7, 8, 9] 10 (fun _ _ => rfl) (by rfl),
   C7_bounded_in_flight_executions.1 (fun _ _ => false) 1000
      [0, 1, 2, 3, 4, 5, 6, 7, 8] 10 [0, 1, 2, 3, 4, 5, 6, 7, 8, 10] (by rfl)⟩
